import Mathlib

/-!
Shallow embedding of `src/main.rs` of the `buoys` repository: a MongoDB-backed
time-series tool that ingests ocean-buoy readings from a CSV file
(`BuoyCollection::load_csv`), lists stations (`list_buoys`), deletes one
station's data (`delete_buoy`) and plots one station's significant wave height
(`draw_buoy`).

The MongoDB collection is modelled as the list of inserted `BuoyDatum`s in
insertion order; the persistence boundary's operations (`insert_one`,
`delete_many`, `distinct`, `find` with a sort, `drop` + `create_collection`)
are modelled from the spec's description of that boundary.  Machine floats are
kept exact as rationals: every numeric literal used in this development is
exactly representable in `f32`, and only parse success/failure and the exact
values of such literals are relied on.  Rationals are always built with
`mkRat` so that every definition evaluates by kernel reduction.
-/

namespace Buoys

/-- Value of a decimal digit character, `none` on a non-digit.  Models the
per-character handling inside Rust's numeric parsers. -/
def digitVal? (c : Char) : Option Nat :=
  if c.isDigit then some (c.toNat - 48) else none

/-- Reads a digit string left to right into a natural number, failing on any
non-digit character.  (`natOfDigitsAux acc [] = some acc`, so callers enforce
nonemptiness where the grammar requires at least one digit.) -/
def natOfDigitsAux : Nat → List Char → Option Nat
  | acc, [] => some acc
  | acc, c :: cs =>
    match digitVal? c with
    | some d => natOfDigitsAux (10 * acc + d) cs
    | none => none

/-- Models the success/failure behaviour and the exact value of Rust's
`str::parse::<f32>` on plain decimal literals: an optional sign followed by
`Digits '.'? Digits?` or `'.' Digits`.  Exponents and the special spellings
`inf`/`infinity`/`nan` are outside the modelled subset (no input in this
development uses them).  Values are kept exact as rationals. -/
def parseFloat? (s : String) : Option Rat :=
  let go : Bool → List Char → Option Rat := fun neg cs =>
    let intDigits := cs.takeWhile Char.isDigit
    let rest := cs.dropWhile Char.isDigit
    let signed : Nat → Nat → Option Rat := fun num den =>
      some (mkRat (if neg then -(num : Int) else (num : Int)) den)
    match rest with
    | [] =>
      if intDigits.isEmpty then none
      else
        match natOfDigitsAux 0 intDigits with
        | some n => signed n 1
        | none => none
    | '.' :: fracCs =>
      if fracCs.all Char.isDigit && (!intDigits.isEmpty || !fracCs.isEmpty) then
        match natOfDigitsAux 0 intDigits, natOfDigitsAux 0 fracCs with
        | some ip, some fp => signed (ip * 10 ^ fracCs.length + fp) (10 ^ fracCs.length)
        | _, _ => none
      else none
    | _ => none
  match s.data with
  | '+' :: cs => go false cs
  | '-' :: cs => go true cs
  | cs => go false cs

/-- Models `bson::DateTime::parse_rfc3339_str` on the RFC 3339 subset
`YYYY-MM-DDTHH:MM:SSZ` (no fractional seconds, `Z` offset) — the format of
every timestamp in this development; any other string is rejected, as the
real parser rejects the empty string and non-timestamp text.  The result is
an order-preserving integer key (a mixed-radix calendar encoding). -/
def parseRFC3339? (s : String) : Option Nat :=
  match s.data with
  | [y1, y2, y3, y4, '-', mo1, mo2, '-', d1, d2, 'T',
     h1, h2, ':', mi1, mi2, ':', s1, s2, 'Z'] =>
    match natOfDigitsAux 0 [y1, y2, y3, y4], natOfDigitsAux 0 [mo1, mo2],
          natOfDigitsAux 0 [d1, d2], natOfDigitsAux 0 [h1, h2],
          natOfDigitsAux 0 [mi1, mi2], natOfDigitsAux 0 [s1, s2] with
    | some y, some mo, some d, some h, some mi, some sec =>
      if 1 ≤ mo ∧ mo ≤ 12 ∧ 1 ≤ d ∧ d ≤ 31 ∧ h ≤ 23 ∧ mi ≤ 59 ∧ sec ≤ 59 then
        some (((((y * 13 + mo) * 32 + d) * 24 + h) * 60 + mi) * 60 + sec)
      else none
    | _, _, _, _, _, _ => none
  | _ => none

/-- Embeds the `BuoyDatum` struct of `src/main.rs` (lines 12–24): one reported
buoy measurement.  `time` is the parsed timestamp key (models
`bson::DateTime`); the `f32` fields are kept exact as rationals. -/
structure BuoyDatum where
  time : Nat
  longitude : Rat
  latitude : Rat
  station_id : String
  significant_wave_height : Rat
  mean_wave_period : Rat
  mean_wave_direction : Rat
  wave_power : Rat
  peak_period : Rat
  energy_period : Rat
deriving DecidableEq, Repr

/-- Embeds the two ways one row makes `load_csv` fail.  `invalidTimestamp`
models the `?` on `bson::DateTime::parse_rfc3339_str` (line 106: an `Err`
returned from `load_csv`); `floatPanic` models the `.unwrap()` on
`str::parse::<f32>` (lines 107–115: a process-aborting panic), tagged with
the CSV position of the offending field and its text. -/
inductive LoadError where
  | invalidTimestamp (text : String)
  | floatPanic (position : Nat) (text : String)
deriving DecidableEq, Repr

/-- Distinguishes the `.unwrap()` panic exits of the row loop (process aborts)
from the `?` exit (an `Err` value returned to the caller). -/
def LoadError.isPanic : LoadError → Bool
  | .invalidTimestamp _ => false
  | .floatPanic _ _ => true

/-- Embeds `record.get(i).unwrap_or_default()` followed by
`.parse::<f32>().unwrap()` for the float field at CSV position `i`: a missing
position reads as `""`, and a failed parse is the panic exit. -/
def parseFloatField (row : List String) (i : Nat) : Except LoadError Rat :=
  match parseFloat? (row.getD i "") with
  | some v => Except.ok v
  | none => Except.error (LoadError.floatPanic i (row.getD i ""))

/-- Embeds one iteration of the record loop of `load_csv` (`src/main.rs`
lines 93–116): each position is read with `record.get(i).unwrap_or_default()`
(missing positions become `""`), the timestamp is parsed with `?`, each of
the nine float fields with `.parse::<f32>().unwrap()`, and `station_id` is
taken verbatim with `.to_string()`, in the source's field order. -/
def decodeRow (row : List String) : Except LoadError BuoyDatum :=
  match parseRFC3339? (row.getD 0 "") with
  | none => Except.error (LoadError.invalidTimestamp (row.getD 0 ""))
  | some time =>
  match parseFloatField row 1 with
  | Except.error e => Except.error e
  | Except.ok longitude =>
  match parseFloatField row 2 with
  | Except.error e => Except.error e
  | Except.ok latitude =>
  match parseFloatField row 4 with
  | Except.error e => Except.error e
  | Except.ok significant_wave_height =>
  match parseFloatField row 5 with
  | Except.error e => Except.error e
  | Except.ok mean_wave_period =>
  match parseFloatField row 6 with
  | Except.error e => Except.error e
  | Except.ok mean_wave_direction =>
  match parseFloatField row 7 with
  | Except.error e => Except.error e
  | Except.ok wave_power =>
  match parseFloatField row 8 with
  | Except.error e => Except.error e
  | Except.ok peak_period =>
  match parseFloatField row 9 with
  | Except.error e => Except.error e
  | Except.ok energy_period =>
    Except.ok
      { time := time
        longitude := longitude
        latitude := latitude
        station_id := row.getD 3 ""
        significant_wave_height := significant_wave_height
        mean_wave_period := mean_wave_period
        mean_wave_direction := mean_wave_direction
        wave_power := wave_power
        peak_period := peak_period
        energy_period := energy_period }

/-- Decidable equality for `Except`, needed to settle concrete decode results
by `decide`. -/
instance instDecEqExcept {ε α : Type} [DecidableEq ε] [DecidableEq α] :
    DecidableEq (Except ε α)
  | Except.ok a, Except.ok b =>
    if h : a = b then isTrue (by rw [h])
    else isFalse (by intro hh; cases hh; exact h rfl)
  | Except.ok _, Except.error _ => isFalse (by intro hh; cases hh)
  | Except.error _, Except.ok _ => isFalse (by intro hh; cases hh)
  | Except.error e, Except.error f =>
    if h : e = f then isTrue (by rw [h])
    else isFalse (by intro hh; cases hh; exact h rfl)

example : decodeRow
    ["2017-01-01T00:00:00Z", "-10.0", "54.0", "Belmullet_Inner",
     "1.0", "5.0", "180.0", "20.0", "9.0", "7.0"] =
    Except.ok
      { time := 72498672000
        longitude := mkRat (-10) 1
        latitude := mkRat 54 1
        station_id := "Belmullet_Inner"
        significant_wave_height := mkRat 1 1
        mean_wave_period := mkRat 5 1
        mean_wave_direction := mkRat 180 1
        wave_power := mkRat 20 1
        peak_period := mkRat 9 1
        energy_period := mkRat 7 1 } := by decide

example : decodeRow ["x"] = Except.error (LoadError.invalidTimestamp "x") := by decide

example : parseFloat? "1.5" = some (mkRat 3 2) := by decide

example : parseFloat? "abc" = none := by decide

example : parseFloat? "" = none := by decide

/-- Contents of the MongoDB time-series collection, modelled as the list of
inserted `BuoyDatum`s in insertion order (`insert_one` appends one datum). -/
abbrev Store := List BuoyDatum

/-- Reports whether `decodeRow` succeeds on a row (the row loop of `load_csv`
reaches its `insert_one` for that row). -/
def decodeOk (row : List String) : Bool :=
  match decodeRow row with
  | Except.ok _ => true
  | Except.error _ => false

/-- Optional view of a successful `decodeRow`. -/
def decodeRow? (row : List String) : Option BuoyDatum :=
  match decodeRow row with
  | Except.ok d => some d
  | Except.error _ => none

/-- Position and cause of the first row of the file on which the `load_csv`
loop fails, if any, counting rows from `pos`. -/
def firstError : Nat → List (List String) → Option (Nat × LoadError)
  | _, [] => none
  | pos, row :: rest =>
    match decodeRow row with
    | Except.ok _ => firstError (pos + 1) rest
    | Except.error e => some (pos, e)

/-- Readings decoded from the longest all-well-formed leading segment of the
rows: exactly what the `load_csv` loop inserts before it stops. -/
def okDecodes (rows : List (List String)) : List BuoyDatum :=
  (rows.takeWhile decodeOk).filterMap decodeRow?

/-- Embeds the row loop of `BuoyCollection::load_csv` (`src/main.rs` lines
89–119) from row position `pos` onward: each row is decoded and inserted with
`insert_one` (an append); on the first failure the loop stops — the `?` on the
timestamp parse returns the error, the `.unwrap()` on a float parse panics —
and the store keeps everything inserted so far. -/
def load_csvFrom : Nat → Store → List (List String) → Store × Option (Nat × LoadError)
  | _, store, [] => (store, none)
  | pos, store, row :: rest =>
    match decodeRow row with
    | Except.ok d => load_csvFrom (pos + 1) (store ++ [d]) rest
    | Except.error e => (store, some (pos, e))

/-- Embeds `BuoyCollection::load_csv` over the data rows of the file (the csv
reader consumes the header row; `rdr.records()` yields the remaining rows as
raw field tuples).  Returns the store after the run together with `none` on
success, or the position and cause of the first failure. -/
def load_csv (store : Store) (rows : List (List String)) :
    Store × Option (Nat × LoadError) :=
  load_csvFrom 0 store rows

/-- Embeds `BuoyCollection::delete_buoy` (`src/main.rs` lines 128–137):
`delete_many` with filter `station_id = buoy`.  The `delete_many` behaviour is
modelled from the spec: the persistence boundary removes exactly the documents
matching the partition-field filter. -/
def delete_buoy (store : Store) (buoy : String) : Store :=
  store.filter (fun d => d.station_id != buoy)

/-- Embeds the `distinct("station_id", ..)` call of `list_buoys` (`src/main.rs`
line 141).  Modelled from the spec: `distinct(container, field)` returns every
unique value of the field, duplicate-free. -/
def distinctStations (store : Store) : List String :=
  (store.map (fun d => d.station_id)).dedup

/-- Ordering used by the `find` sort option `doc! { "time": 1 }`. -/
def timeLE (a b : BuoyDatum) : Prop := a.time ≤ b.time

instance : DecidableRel timeLE := fun a b => Nat.decLe a.time b.time

instance : IsTotal BuoyDatum timeLE := ⟨fun a b => Nat.le_total a.time b.time⟩

instance : IsTrans BuoyDatum timeLE := ⟨fun _ _ _ h h' => Nat.le_trans h h'⟩

/-- Embeds the cursor of `draw_buoy`'s `find` (`src/main.rs` lines 148–151):
filter `station_id = buoy`, sort ascending by `time`.  Modelled from the spec:
`find(container, filter, sort-by-field)` returns the matching documents sorted
ascending by the sort field (a stable sort, modelled by insertion sort). -/
def findTimeSorted (store : Store) (buoy : String) : List BuoyDatum :=
  List.insertionSort timeLE (store.filter (fun d => d.station_id == buoy))

/-- Embeds the series `draw_buoy` plots (`src/main.rs` lines 153–159): walk
the sorted cursor pairing an index `i` — starting at `-100.0` and incremented
by `1.0`, exact integer arithmetic in `f32` at these magnitudes — with the
`significant_wave_height` field of each datum. -/
def draw_buoy (store : Store) (buoy : String) : List (Rat × Rat) :=
  (findTimeSorted store buoy).enum.map
    (fun p => (mkRat ((p.1 : Int) - 100) 1, p.2.significant_wave_height))

/-- Embeds the granularity choices of `mongodb::options::TimeseriesGranularity`
used by `BuoyCollection::new`. -/
inductive TimeseriesGranularity where
  | seconds
  | minutes
  | hours
deriving DecidableEq, Repr

/-- Embeds the `TimeseriesOptions` built in `BuoyCollection::new`
(`src/main.rs` lines 62–66). -/
structure TimeseriesOptions where
  time_field : String
  meta_field : Option String
  granularity : Option TimeseriesGranularity
deriving DecidableEq, Repr

/-- Embeds a named collection as its time-series options plus contents. -/
structure Container where
  options : TimeseriesOptions
  data : Store
deriving DecidableEq, Repr

/-- Exact options `BuoyCollection::new` passes to `create_collection`:
time field `time`, meta (partition) field `station_id`, minute granularity. -/
def buoyTimeseriesOptions : TimeseriesOptions :=
  { time_field := "time"
    meta_field := some "station_id"
    granularity := some TimeseriesGranularity.minutes }

/-- Embeds `BuoyCollection::new` (`src/main.rs` lines 36–78): `coll.drop`
discards whatever collection (if any) currently bears the configured name,
then `create_collection` recreates it with `buoyTimeseriesOptions`.  Modelled
from the spec: the persistence boundary's container creation yields a fresh
empty container, destroying the previous one. -/
def newBuoyCollection (previous : Option Container) : Container :=
  { options := buoyTimeseriesOptions
    data := [] }

/-- Row 1 of the §8 scenario file: station `Belmullet_Inner`, wave height 1.0. -/
def belmullet1 : List String :=
  ["2017-01-01T00:00:00Z", "-10.0", "54.0", "Belmullet_Inner",
   "1.0", "5.0", "180.0", "20.0", "9.0", "7.0"]

/-- Row 2 of the §8 scenario file: one minute later, wave height 2.0. -/
def belmullet2 : List String :=
  ["2017-01-01T00:01:00Z", "-10.0", "54.0", "Belmullet_Inner",
   "2.0", "5.0", "180.0", "20.0", "9.0", "7.0"]

/-- Row 3 of the §8 scenario file: two minutes later, wave height 1.5. -/
def belmullet3 : List String :=
  ["2017-01-01T00:02:00Z", "-10.0", "54.0", "Belmullet_Inner",
   "1.5", "5.0", "180.0", "20.0", "9.0", "7.0"]

/-- Store obtained by ingesting the three-row scenario file into a fresh
collection. -/
def belmulletStore : Store :=
  (load_csv [] [belmullet1, belmullet2, belmullet3]).1

example : belmulletStore.length = 3 := by decide

example : draw_buoy belmulletStore "Belmullet_Inner" =
    [(mkRat (-100) 1, mkRat 1 1), (mkRat (-99) 1, mkRat 2 1),
     (mkRat (-98) 1, mkRat 3 2)] := by decide

example : distinctStations belmulletStore = ["Belmullet_Inner"] := by decide

/-- Structural characterization of the `load_csv` loop: starting at position
`pos` with contents `store`, the run appends exactly the decodes of the
longest well-formed leading segment of the rows and reports the first
failure (if any) with its position. -/
theorem load_csvFrom_eq (pos : Nat) (store : Store) (rows : List (List String)) :
    load_csvFrom pos store rows = (store ++ okDecodes rows, firstError pos rows) := by
  induction rows generalizing pos store with
  | nil => simp [load_csvFrom, okDecodes, firstError]
  | cons row rest ih =>
    cases h : decodeRow row with
    | ok d =>
      have hok : decodeOk row = true := by simp [decodeOk, h]
      simp [load_csvFrom, okDecodes, firstError, h, hok, decodeRow?, ih,
        List.takeWhile_cons, List.filterMap_cons]
    | error e =>
      have hok : decodeOk row = false := by simp [decodeOk, h]
      simp [load_csvFrom, okDecodes, firstError, h, hok,
        List.takeWhile_cons]

/-- When no row fails, the well-formed leading segment is the whole file and
every row contributes one reading. -/
theorem okDecodes_length_of_no_error (pos : Nat) (rows : List (List String))
    (h : firstError pos rows = none) : (okDecodes rows).length = rows.length := by
  induction rows generalizing pos with
  | nil => simp [okDecodes]
  | cons row rest ih =>
    cases hd : decodeRow row with
    | ok d =>
      have hok : decodeOk row = true := by simp [decodeOk, hd]
      have hrest : firstError (pos + 1) rest = none := by
        simpa [firstError, hd] using h
      simp [okDecodes, List.takeWhile_cons, hok, decodeRow?, hd,
        List.filterMap_cons]
      simpa [okDecodes] using ih (pos + 1) hrest
    | error e =>
      exact absurd h (by simp [firstError, hd])

/-- Float-carrying CSV positions, in the order the `load_csv` loop parses
them (position 3, `station_id`, is not parsed). -/
def floatPositions : List Nat := [1, 2, 4, 5, 6, 7, 8, 9]

/-- Raw tuple whose longitude field (position 1) is not a number; every other
field is well-formed. -/
def rowBadLongitude : List String :=
  ["2017-01-01T00:00:00Z", "abc", "54.0", "Belmullet_Inner",
   "1.0", "5.0", "180.0", "20.0", "9.0", "7.0"]

/-- Raw tuple whose `station_id` field (position 3) is empty; every other
field is well-formed. -/
def rowEmptyStation : List String :=
  ["2017-01-01T00:00:00Z", "-10.0", "54.0", "",
   "1.0", "5.0", "180.0", "20.0", "9.0", "7.0"]

/-- C1 counterexample: over a file with M = 1 well-formed row and K = 1
malformed row (the malformed one first), `load_csv` does not record the bad
row and continue — it stops at row 0 with the timestamp error, so the store
ends with 0 readings instead of the claimed M = 1. -/
theorem load_csv_aborts_counterexample :
    load_csv [] [["x"], belmullet1] =
      ([], some (0, LoadError.invalidTimestamp "x")) ∧
    (load_csv [] [["x"], belmullet1]).1.length ≠ 1 := by decide

/-- C1 (amended): a malformed row aborts the rest of the run instead of being
skipped: `load_csv` inserts exactly the readings decoded from the longest
well-formed leading segment of the file, stops at the first malformed row
with its position and cause (a bad timestamp as a returned error, a bad float
as an `unwrap` panic), and never reaches later rows; when every row is
well-formed, all M rows are inserted. -/
theorem load_csv_stops_at_first_malformed (store : Store) (rows : List (List String)) :
    load_csv store rows = (store ++ okDecodes rows, firstError 0 rows) ∧
    (firstError 0 rows = none →
      (load_csv store rows).1.length = store.length + rows.length) := by
  refine ⟨load_csvFrom_eq 0 store rows, fun h => ?_⟩
  rw [load_csv, load_csvFrom_eq]
  simp [okDecodes_length_of_no_error 0 rows h]

/-- Witness for `load_csv_stops_at_first_malformed` at a concrete one-row
well-formed file. -/
theorem load_csv_stops_at_first_malformed_witness :
    load_csv ([] : Store) [belmullet1] =
      ([] ++ okDecodes [belmullet1], firstError 0 [belmullet1]) ∧
    (load_csv ([] : Store) [belmullet1]).1.length =
      ([] : Store).length + [belmullet1].length :=
  ⟨(load_csv_stops_at_first_malformed [] [belmullet1]).1,
   (load_csv_stops_at_first_malformed [] [belmullet1]).2 (by decide)⟩

/-- C2 counterexample: on a tuple whose longitude is `"abc"`, decoding does
not produce a recoverable `DecodeError::InvalidNumber` value — no such type
exists in the code; it hits the `.unwrap()` panic on `str::parse::<f32>`, a
process abort (`isPanic`), exactly what the claim excludes. -/
theorem decode_bad_float_panic_counterexample :
    decodeRow rowBadLongitude =
      Except.error (LoadError.floatPanic 1 "abc") ∧
    (LoadError.floatPanic 1 "abc").isPanic = true := by decide

/-- C2 (amended): for every raw tuple whose timestamp parses and in which
some float field (longitude, latitude, or any of the seven measurements) is
not parseable, decoding stops at the first such field with an `unwrap` panic
— a process abort, not a typed recoverable error — and the record is not
inserted. -/
theorem decode_first_bad_float_panics (row : List String) (t : Nat) (i : Nat)
    (ht : parseRFC3339? (row.getD 0 "") = some t)
    (hi : i ∈ floatPositions)
    (hfail : parseFloat? (row.getD i "") = none)
    (hbefore : ∀ j ∈ floatPositions, j < i →
      (parseFloat? (row.getD j "")).isSome = true) :
    decodeRow row = Except.error (LoadError.floatPanic i (row.getD i "")) ∧
    (LoadError.floatPanic i (row.getD i "")).isPanic = true := by
  refine ⟨?_, rfl⟩
  simp only [floatPositions, List.mem_cons, List.not_mem_nil, or_false] at hi
  rcases hi with rfl | rfl | rfl | rfl | rfl | rfl | rfl | rfl
  · simp only [decodeRow, parseFloatField, ht, hfail]
  · obtain ⟨v1, h1⟩ := Option.isSome_iff_exists.mp (hbefore 1 (by decide) (by decide))
    simp only [decodeRow, parseFloatField, ht, h1, hfail]
  · obtain ⟨v1, h1⟩ := Option.isSome_iff_exists.mp (hbefore 1 (by decide) (by decide))
    obtain ⟨v2, h2⟩ := Option.isSome_iff_exists.mp (hbefore 2 (by decide) (by decide))
    simp only [decodeRow, parseFloatField, ht, h1, h2, hfail]
  · obtain ⟨v1, h1⟩ := Option.isSome_iff_exists.mp (hbefore 1 (by decide) (by decide))
    obtain ⟨v2, h2⟩ := Option.isSome_iff_exists.mp (hbefore 2 (by decide) (by decide))
    obtain ⟨v4, h4⟩ := Option.isSome_iff_exists.mp (hbefore 4 (by decide) (by decide))
    simp only [decodeRow, parseFloatField, ht, h1, h2, h4, hfail]
  · obtain ⟨v1, h1⟩ := Option.isSome_iff_exists.mp (hbefore 1 (by decide) (by decide))
    obtain ⟨v2, h2⟩ := Option.isSome_iff_exists.mp (hbefore 2 (by decide) (by decide))
    obtain ⟨v4, h4⟩ := Option.isSome_iff_exists.mp (hbefore 4 (by decide) (by decide))
    obtain ⟨v5, h5⟩ := Option.isSome_iff_exists.mp (hbefore 5 (by decide) (by decide))
    simp only [decodeRow, parseFloatField, ht, h1, h2, h4, h5, hfail]
  · obtain ⟨v1, h1⟩ := Option.isSome_iff_exists.mp (hbefore 1 (by decide) (by decide))
    obtain ⟨v2, h2⟩ := Option.isSome_iff_exists.mp (hbefore 2 (by decide) (by decide))
    obtain ⟨v4, h4⟩ := Option.isSome_iff_exists.mp (hbefore 4 (by decide) (by decide))
    obtain ⟨v5, h5⟩ := Option.isSome_iff_exists.mp (hbefore 5 (by decide) (by decide))
    obtain ⟨v6, h6⟩ := Option.isSome_iff_exists.mp (hbefore 6 (by decide) (by decide))
    simp only [decodeRow, parseFloatField, ht, h1, h2, h4, h5, h6, hfail]
  · obtain ⟨v1, h1⟩ := Option.isSome_iff_exists.mp (hbefore 1 (by decide) (by decide))
    obtain ⟨v2, h2⟩ := Option.isSome_iff_exists.mp (hbefore 2 (by decide) (by decide))
    obtain ⟨v4, h4⟩ := Option.isSome_iff_exists.mp (hbefore 4 (by decide) (by decide))
    obtain ⟨v5, h5⟩ := Option.isSome_iff_exists.mp (hbefore 5 (by decide) (by decide))
    obtain ⟨v6, h6⟩ := Option.isSome_iff_exists.mp (hbefore 6 (by decide) (by decide))
    obtain ⟨v7, h7⟩ := Option.isSome_iff_exists.mp (hbefore 7 (by decide) (by decide))
    simp only [decodeRow, parseFloatField, ht, h1, h2, h4, h5, h6, h7, hfail]
  · obtain ⟨v1, h1⟩ := Option.isSome_iff_exists.mp (hbefore 1 (by decide) (by decide))
    obtain ⟨v2, h2⟩ := Option.isSome_iff_exists.mp (hbefore 2 (by decide) (by decide))
    obtain ⟨v4, h4⟩ := Option.isSome_iff_exists.mp (hbefore 4 (by decide) (by decide))
    obtain ⟨v5, h5⟩ := Option.isSome_iff_exists.mp (hbefore 5 (by decide) (by decide))
    obtain ⟨v6, h6⟩ := Option.isSome_iff_exists.mp (hbefore 6 (by decide) (by decide))
    obtain ⟨v7, h7⟩ := Option.isSome_iff_exists.mp (hbefore 7 (by decide) (by decide))
    obtain ⟨v8, h8⟩ := Option.isSome_iff_exists.mp (hbefore 8 (by decide) (by decide))
    simp only [decodeRow, parseFloatField, ht, h1, h2, h4, h5, h6, h7, h8, hfail]

/-- Witness for `decode_first_bad_float_panics` at the concrete tuple with
longitude `"abc"`. -/
theorem decode_first_bad_float_panics_witness :
    decodeRow rowBadLongitude =
      Except.error (LoadError.floatPanic 1 (rowBadLongitude.getD 1 "")) := by
  have hsome : (parseRFC3339? (rowBadLongitude.getD 0 "")).isSome = true := by decide
  obtain ⟨t, ht⟩ := Option.isSome_iff_exists.mp hsome
  refine (decode_first_bad_float_panics rowBadLongitude t 1 ht (by decide) (by decide)
    ?_).1
  intro j hj hlt
  simp only [floatPositions, List.mem_cons, List.not_mem_nil, or_false] at hj
  rcases hj with rfl | rfl | rfl | rfl | rfl | rfl | rfl | rfl <;> omega

/-- C3 counterexample: a row whose `station_id` field is empty (and is empty
after any trimming) is not rejected with a missing-source error — the load
succeeds and the store ends holding a reading whose `station_id` is `""`. -/
theorem empty_station_persisted_counterexample :
    (load_csv [] [rowEmptyStation]).2 = none ∧
    (load_csv [] [rowEmptyStation]).1.map (fun d => d.station_id) = [""] := by
  decide

/-- C3 (amended): `station_id` is taken verbatim from field position 3 — no
trimming and no emptiness check — so any record whose other fields are valid
decodes (and is persisted) whatever its `station_id`, the empty string
included. -/
theorem station_id_taken_verbatim (row : List String) (d : BuoyDatum)
    (h : decodeRow row = Except.ok d) : d.station_id = row.getD 3 "" := by
  unfold decodeRow at h
  repeat' split at h
  all_goals cases h
  rfl

/-- Witness for `station_id_taken_verbatim` at the concrete empty-station
tuple. -/
theorem station_id_taken_verbatim_witness :
    (match decodeRow rowEmptyStation with
      | Except.ok d => d.station_id
      | Except.error _ => "unreachable") = rowEmptyStation.getD 3 "" := by
  cases h : decodeRow rowEmptyStation with
  | ok d => exact station_id_taken_verbatim rowEmptyStation d h
  | error e =>
    have hok : decodeOk rowEmptyStation = true := by decide
    simp [decodeOk, h] at hok

/-- C9 (confirmed): when an ingestion run fails partway through, the store
returned by `load_csv` is the starting store followed by every reading
accepted before the failure — prior committed data is unchanged, in place and
in order; nothing is rolled back. -/
theorem load_csv_keeps_committed_data (store store' : Store)
    (rows : List (List String)) (p : Nat) (e : LoadError)
    (h : load_csv store rows = (store', some (p, e))) :
    store' = store ++ okDecodes rows := by
  rw [load_csv, load_csvFrom_eq] at h
  exact (congrArg Prod.fst h).symm

/-- Witness for `load_csv_keeps_committed_data` at a concrete run failing on
its second row. -/
theorem load_csv_keeps_committed_data_witness :
    (load_csv [] [belmullet1, ["x"]]).1 = [] ++ okDecodes [belmullet1, ["x"]] :=
  load_csv_keeps_committed_data [] (load_csv [] [belmullet1, ["x"]]).1
    [belmullet1, ["x"]] 1 (LoadError.invalidTimestamp "x") (by decide)

/-- C10 counterexample: the one-field row `["x"]` has fewer than ten fields;
its first absent field is position 1 (longitude), yet decoding does not fail
at that absent field's parse — it fails earlier, at the RFC 3339 parse of the
present text `"x"` at position 0. -/
theorem short_row_fails_at_timestamp_counterexample :
    (["x"] : List String).length < 10 ∧
    decodeRow ["x"] = Except.error (LoadError.invalidTimestamp "x") ∧
    decodeRow ["x"] ≠ Except.error (LoadError.floatPanic 1 "") := by decide

/-- C10 (amended): for every CSV row with fewer than ten fields, each missing
position is read as the empty string (field access uses the defaulting getter
`get(i).unwrap_or_default()`, never an out-of-bounds error) and the row always
fails to decode — at the first failing parse, which need not be an absent
field's — and when position 0 itself is missing the empty timestamp string
fails RFC 3339 parsing. -/
theorem short_row_always_fails (row : List String) (h : row.length < 10) :
    (∀ i, row.length ≤ i → row.getD i "" = "") ∧
    decodeOk row = false ∧
    (row.getD 0 "" = "" →
      decodeRow row = Except.error (LoadError.invalidTimestamp "")) := by
  refine ⟨fun i hi => List.getD_eq_default _ _ hi, ?_, fun h0 => ?_⟩
  · have h9 : row.getD 9 "" = "" := List.getD_eq_default _ _ (by omega)
    have h9f : parseFloat? (row.getD 9 "") = none := by rw [h9]; decide
    cases ht : parseRFC3339? (row.getD 0 "") with
    | none => simp only [decodeOk, decodeRow, ht]
    | some t =>
      cases h1 : parseFloat? (row.getD 1 "") with
      | none => simp only [decodeOk, decodeRow, parseFloatField, ht, h1]
      | some v1 =>
        cases h2 : parseFloat? (row.getD 2 "") with
        | none => simp only [decodeOk, decodeRow, parseFloatField, ht, h1, h2]
        | some v2 =>
          cases h4 : parseFloat? (row.getD 4 "") with
          | none => simp only [decodeOk, decodeRow, parseFloatField, ht, h1, h2, h4]
          | some v4 =>
            cases h5 : parseFloat? (row.getD 5 "") with
            | none =>
              simp only [decodeOk, decodeRow, parseFloatField, ht, h1, h2, h4, h5]
            | some v5 =>
              cases h6 : parseFloat? (row.getD 6 "") with
              | none =>
                simp only [decodeOk, decodeRow, parseFloatField, ht, h1, h2, h4, h5, h6]
              | some v6 =>
                cases h7 : parseFloat? (row.getD 7 "") with
                | none =>
                  simp only [decodeOk, decodeRow, parseFloatField, ht,
                    h1, h2, h4, h5, h6, h7]
                | some v7 =>
                  cases h8 : parseFloat? (row.getD 8 "") with
                  | none =>
                    simp only [decodeOk, decodeRow, parseFloatField, ht,
                      h1, h2, h4, h5, h6, h7, h8]
                  | some v8 =>
                    simp only [decodeOk, decodeRow, parseFloatField, ht,
                      h1, h2, h4, h5, h6, h7, h8, h9f]
  · have hn : parseRFC3339? ("" : String) = none := by decide
    simp only [decodeRow, h0, hn]

/-- Witness for `short_row_always_fails` at the concrete one-field row. -/
theorem short_row_always_fails_witness :
    (["x"] : List String).length < 10 ∧ decodeOk ["x"] = false ∧
    (["x"] : List String).getD 5 "" = "" :=
  ⟨by decide, (short_row_always_fails ["x"] (by decide)).2.1,
   (short_row_always_fails ["x"] (by decide)).1 5 (by decide)⟩

/-- C4 (confirmed): the cursor of `draw_buoy`'s `find` holds exactly the
stored readings of the requested station (a permutation of the filter of the
store), sorted ascending by timestamp, and every returned reading carries
that station id; a station with no stored readings yields the empty series,
not an error. -/
theorem draw_buoy_find_ordered (store : Store) (buoy : String) :
    List.Perm (findTimeSorted store buoy)
      (store.filter (fun d => d.station_id == buoy)) ∧
    List.Sorted timeLE (findTimeSorted store buoy) ∧
    (∀ d ∈ findTimeSorted store buoy, d.station_id = buoy) ∧
    ((∀ d ∈ store, d.station_id ≠ buoy) → draw_buoy store buoy = []) := by
  refine ⟨List.perm_insertionSort timeLE _, List.sorted_insertionSort timeLE _, ?_, ?_⟩
  · intro d hd
    have hmem : d ∈ store.filter (fun d => d.station_id == buoy) :=
      (List.perm_insertionSort timeLE _).mem_iff.mp hd
    have := List.of_mem_filter hmem
    simpa using this
  · intro hnone
    have hfil : store.filter (fun d => d.station_id == buoy) = [] := by
      rw [List.filter_eq_nil_iff]
      intro d hd
      simpa using hnone d hd
    simp [draw_buoy, findTimeSorted, hfil]

/-- Witness for `draw_buoy_find_ordered`: a station absent from the scenario
store yields the empty series. -/
theorem draw_buoy_find_ordered_witness :
    draw_buoy belmulletStore "Nowhere" = [] :=
  (draw_buoy_find_ordered belmulletStore "Nowhere").2.2.2 (by decide)

/-- C5 counterexample: after ingesting the three-row `Belmullet_Inner` file,
the series is indexed from `-100` (the code initializes `i = -100.0`), not
from `0` as the claim states. -/
theorem belmullet_series_zero_based_counterexample :
    draw_buoy belmulletStore "Belmullet_Inner" =
      [(mkRat (-100) 1, mkRat 1 1), (mkRat (-99) 1, mkRat 2 1),
       (mkRat (-98) 1, mkRat 3 2)] ∧
    draw_buoy belmulletStore "Belmullet_Inner" ≠
      [(mkRat 0 1, mkRat 1 1), (mkRat 1 1, mkRat 2 1),
       (mkRat 2 1, mkRat 3 2)] := by decide

/-- C5 (amended): after ingesting the three-row `Belmullet_Inner` file with
ascending timestamps and wave heights 1.0, 2.0, 1.5, the series for that
station pairs consecutive indices starting at `-100` (in timestamp order)
with those heights: `(-100, 1.0), (-99, 2.0), (-98, 1.5)`; after deleting the
station the same query returns the empty sequence. -/
theorem belmullet_series_offset_index :
    draw_buoy belmulletStore "Belmullet_Inner" =
      [(mkRat (-100) 1, mkRat 1 1), (mkRat (-99) 1, mkRat 2 1),
       (mkRat (-98) 1, mkRat 3 2)] ∧
    draw_buoy (delete_buoy belmulletStore "Belmullet_Inner")
      "Belmullet_Inner" = [] := by decide

/-- Raw tuple whose six measurement fields are pairwise different, to expose
which measurement the series projects. -/
def rowDistinctFields : List String :=
  ["2017-01-01T00:00:00Z", "-10.0", "54.0", "S1",
   "1.0", "2.0", "3.0", "4.0", "5.0", "6.0"]

/-- Store holding the single reading of `rowDistinctFields`. -/
def storeDistinct : Store := (load_csv [] [rowDistinctFields]).1

/-- C6 counterexample: `draw_buoy` takes only the store and the station name
— there is no measurement argument.  On a store whose single reading has
pairwise different measurement values, its output is the
`significant_wave_height` projection and differs from the other measurements'
projections, so the caller cannot obtain any of those series. -/
theorem draw_buoy_fixed_projection_counterexample :
    (draw_buoy storeDistinct "S1").map Prod.snd =
      storeDistinct.map (fun d => d.significant_wave_height) ∧
    (draw_buoy storeDistinct "S1").map Prod.snd ≠
      storeDistinct.map (fun d => d.mean_wave_period) ∧
    (draw_buoy storeDistinct "S1").map Prod.snd ≠
      storeDistinct.map (fun d => d.wave_power) ∧
    (draw_buoy storeDistinct "S1").map Prod.snd ≠
      storeDistinct.map (fun d => d.energy_period) := by decide

/-- Helper: mapping the value projection over the indexed series recovers the
significant-wave-height column, whatever the start index. -/
theorem enumFrom_map_snd_swh (n : Nat) (l : List BuoyDatum) :
    ((l.enumFrom n).map
      (fun p => (mkRat ((p.1 : Int) - 100) 1,
        p.2.significant_wave_height))).map Prod.snd =
    l.map (fun d => d.significant_wave_height) := by
  induction l generalizing n with
  | nil => rfl
  | cons d rest ih =>
    have ih' := ih (n + 1)
    simp [List.enumFrom] at ih' ⊢
    exact ih'

/-- C6 (amended): the series-producing read operation projects the
`significant_wave_height` measurement, always: the caller chooses the source
but not the measurement field. -/
theorem draw_buoy_projects_only_swh (store : Store) (buoy : String) :
    (draw_buoy store buoy).map Prod.snd =
      (findTimeSorted store buoy).map (fun d => d.significant_wave_height) := by
  simp only [draw_buoy, List.enum]
  exact enumFrom_map_snd_swh 0 (findTimeSorted store buoy)

/-- C7 (confirmed): initialization yields a fresh empty container whose
options carry `time` as the time (ordering) key, `station_id` as the
meta/partition key and minute granularity, whatever container previously
existed; it is idempotent — re-running it on its own output is the same
operation — and `distinctSources` of the fresh container is empty. -/
theorem new_buoy_collection_fresh (previous : Option Container) :
    (newBuoyCollection previous).data = [] ∧
    (newBuoyCollection previous).options.time_field = "time" ∧
    (newBuoyCollection previous).options.meta_field = some "station_id" ∧
    (newBuoyCollection previous).options.granularity =
      some TimeseriesGranularity.minutes ∧
    distinctStations (newBuoyCollection previous).data = [] ∧
    newBuoyCollection (some (newBuoyCollection previous)) =
      newBuoyCollection previous :=
  ⟨rfl, rfl, rfl, rfl, rfl, rfl⟩

/-- C8 (confirmed): `delete_buoy` removes exactly the readings whose
`station_id` equals the target: none survive, every other reading survives,
and a store with no matching reading is returned unchanged (a no-op, not an
error); afterwards the ordered query for the target is empty and the target
is absent from `distinctSources`, while every other station's readings are
untouched. -/
theorem delete_buoy_exact (store : Store) (S T : String) (hT : T ≠ S) :
    (∀ d ∈ delete_buoy store S, d.station_id ≠ S) ∧
    (∀ d ∈ store, d.station_id ≠ S → d ∈ delete_buoy store S) ∧
    ((∀ d ∈ store, d.station_id ≠ S) → delete_buoy store S = store) ∧
    draw_buoy (delete_buoy store S) S = [] ∧
    S ∉ distinctStations (delete_buoy store S) ∧
    (delete_buoy store S).filter (fun d => d.station_id == T) =
      store.filter (fun d => d.station_id == T) := by
  refine ⟨?_, ?_, ?_, ?_, ?_, ?_⟩
  · intro d hd
    have := List.of_mem_filter hd
    simpa using this
  · intro d hd hne
    exact List.mem_filter_of_mem hd (by simpa using hne)
  · intro hall
    rw [delete_buoy, List.filter_eq_self]
    intro d hd
    simpa using hall d hd
  · have hfil : (delete_buoy store S).filter (fun d => d.station_id == S) = [] := by
      rw [List.filter_eq_nil_iff]
      intro d hd
      have := List.of_mem_filter hd
      simpa using this
    simp [draw_buoy, findTimeSorted, hfil]
  · intro hmem
    rw [distinctStations, List.mem_dedup] at hmem
    obtain ⟨d, hd, hds⟩ := List.mem_map.mp hmem
    have := List.of_mem_filter hd
    simp [hds] at this
  · rw [delete_buoy, List.filter_filter]
    apply List.filter_congr
    intro d hd
    cases hc : (d.station_id == T) with
    | false => simp [hc]
    | true =>
      have hdT : d.station_id = T := by simpa using hc
      simp [hc, hdT, hT]

/-- Witness for `delete_buoy_exact`: deleting the scenario station empties
its query and removes it from the distinct stations. -/
theorem delete_buoy_exact_witness :
    draw_buoy (delete_buoy belmulletStore "Belmullet_Inner")
      "Belmullet_Inner" = [] ∧
    "Belmullet_Inner" ∉
      distinctStations (delete_buoy belmulletStore "Belmullet_Inner") :=
  ⟨(delete_buoy_exact belmulletStore "Belmullet_Inner" "Other" (by decide)).2.2.2.1,
   (delete_buoy_exact belmulletStore "Belmullet_Inner" "Other"
     (by decide)).2.2.2.2.1⟩

end Buoys
